import Mathlib

/-!
Verification of `torrent2http.go` (liwen-cn/torrent2http).

Shallow embedding conventions:
* Go `float64` / `float32` arithmetic is modelled over `ℚ` (the claims under
  study concern which values are combined and exact small fractions, not
  floating-point rounding).
* Go `int` is modelled as `Int`.
* The external libtorrent engine is modelled as oracle parameters: per-piece
  completion (`Get_piece_progress`) is a function `Int → ℚ`, the torrent
  status is a record, the alert stream of the session is a `List String` of
  alert kinds (`What()`), exhausted when `Wait_for_alert` times out with no
  alert pending.
* The `TorrentFS` file index (`file.Pieces()`, defined in a companion file of
  the repository not present here) is modelled by carrying each file's piece
  range `[startPiece, endPiece)` as data, exactly as `lsHandler` consumes it.
* Side-effecting procedures (`shutdown`, `stopServices`, `removeFiles`) are
  embedded as functions returning the ordered trace of engine / OS actions
  they perform.
-/

namespace Torrent2http

/-! ## Data model: files and listing (`FileStatusInfo`, `lsHandler`) -/

/-- A file of the torrent, as `lsHandler` sees it: name, byte size, byte
offset, and the covering piece range `[startPiece, endPiece)` returned by
`file.Pieces()`. -/
structure TorrentFile where
  name : String
  size : Int
  offset : Int
  startPiece : Int
  endPiece : Int
deriving DecidableEq, Repr

/-- Embeds the Go struct `FileStatusInfo` (the per-file JSON record produced
by `lsHandler`): `total_pieces` and `buffer` are the computed fields. -/
structure FileStatusInfo where
  name : String
  size : Int
  offset : Int
  totalPieces : Int
  buffer : ℚ
deriving DecidableEq, Repr

/-- Embeds lines 118-121 of `lsHandler`:
`pieces := int(math.Ceil(instance.config.buffer * float64(endPiece-startPiece)))`
followed by the clamp `if pieces < 1 { pieces = 1 }`. -/
def lsPieceCount (bufferFrac : ℚ) (startPiece endPiece : Int) : Int :=
  let pieces := ⌈bufferFrac * ((endPiece - startPiece : Int) : ℚ)⌉
  if pieces < 1 then 1 else pieces

/-- Embeds the accumulation loop of `lsHandler` (lines 122-125):
`for piece := 0; piece < pieces; piece++ { buffer += Get_piece_progress(handle, piece) }`.
`bufferSumLoop progress n` is the sum of `progress 0, …, progress (n-1)`,
added in loop order.  Note the loop counter starts at the absolute torrent
piece index `0`, not at the file's `startPiece`. -/
def bufferSumLoop (progress : Int → ℚ) : Nat → ℚ
  | 0 => 0
  | n + 1 => bufferSumLoop progress n + progress n

/-- Embeds the body of the `for _, file := range files` loop of `lsHandler`
(lines 115-134): computes the `FileStatusInfo` record for one file, given the
configured buffer fraction and the engine's per-piece completion oracle. -/
def fileStatus (bufferFrac : ℚ) (progress : Int → ℚ) (f : TorrentFile) :
    FileStatusInfo :=
  let pieces := lsPieceCount bufferFrac f.startPiece f.endPiece
  let buffer := bufferSumLoop progress pieces.toNat / (pieces : ℚ)
  { name := f.name
    size := f.size
    offset := f.offset
    totalPieces := max (f.endPiece - f.startPiece) 1
    buffer := buffer }

/-- Embeds `lsHandler` (lines 108-140): the returned `LsInfo.files` list, one
`FileStatusInfo` per file of the torrent, freshly computed from the engine
oracle. -/
def lsHandler (bufferFrac : ℚ) (progress : Int → ℚ)
    (files : List TorrentFile) : List FileStatusInfo :=
  files.map (fileStatus bufferFrac progress)

/-- Modelled from the spec (§4.3), for comparison with the code: buffer
readiness of a file is the arithmetic mean of the engine completion fractions
of the first `max(ceil(bufferFraction × (endPiece - startPiece)), 1)` pieces
of the file's OWN range, i.e. pieces `startPiece, startPiece+1, …`. -/
def specBufferSum (progress : Int → ℚ) (start : Int) : Nat → ℚ
  | 0 => 0
  | n + 1 => specBufferSum progress start n + progress (start + n)

/-- Modelled from the spec (§4.3): the claimed per-file buffer readiness,
averaging over the leading pieces of the file's own piece range. -/
def specBufferReadiness (bufferFrac : ℚ) (progress : Int → ℚ)
    (f : TorrentFile) : ℚ :=
  let pieces := lsPieceCount bufferFrac f.startPiece f.endPiece
  specBufferSum progress f.startPiece pieces.toNat / (pieces : ℚ)

/-! ## Status endpoint (`statusHandler`) -/

/-- The live torrent status as the libtorrent engine reports it
(`torrentHandle.Status()` plus `torrentHandle.Name()`), modelled as a record
of oracle values.  Rates are in bytes/second as returned by the engine. -/
structure TorrentStatus where
  name : String
  state : Int
  progress : ℚ
  downloadRate : ℚ
  uploadRate : ℚ
  numPeers : Int
  numIncomplete : Int
  numSeeds : Int
  numComplete : Int
deriving DecidableEq, Repr

/-- Embeds the Go struct `SessionStatus`, the JSON record written by
`statusHandler`.  Go zero values are the field defaults. -/
structure SessionStatus where
  name : String := ""
  state : Int := 0
  progress : ℚ := 0
  downloadRate : ℚ := 0
  uploadRate : ℚ := 0
  numPeers : Int := 0
  numSeeds : Int := 0
  totalSeeds : Int := 0
  totalPeers : Int := 0
deriving DecidableEq, Repr

/-- Embeds `statusHandler` (lines 84-106): the argument is `none` when
`instance.torrentHandle == nil`, otherwise the handle's live status.  The
handler always produces a `SessionStatus` record (marshalled to JSON), never
an error response; the nil-handle case yields the `State: -1` sentinel with
every other field left at its Go zero value. -/
def statusHandler : Option TorrentStatus → SessionStatus
  | none => { state := -1 }
  | some t =>
      { name := t.name
        state := t.state
        progress := t.progress
        downloadRate := t.downloadRate / 1000
        uploadRate := t.uploadRate / 1000
        numPeers := t.numPeers
        totalPeers := t.numIncomplete
        numSeeds := t.numSeeds
        totalSeeds := t.numComplete }

/-! ## Fallback file removal (`removeFiles`) -/

/-- Embeds `removeFiles` (lines 170-179) as the list of filesystem paths the
procedure passes to `os.RemoveAll`, each recorded as the pair
`(savePath, filePath)` joined by `path.Join` in the source.
`hasMetadata` is `torrentHandle.Status().GetHas_metadata()`; `filePaths` is
the torrent-info file list `torrentInfo.File_at(i).GetPath()` in index
order.  When no metadata is available the procedure returns at once and
deletes nothing. -/
def removeFiles (hasMetadata : Bool) (savePath : String)
    (filePaths : List String) : List (String × String) :=
  if hasMetadata = false then []
  else filePaths.map (fun p => (savePath, p))

/-! ## Shutdown sequence (`stopServices`, `shutdown`) -/

/-- The observable engine / OS actions performed by the shutdown path, in
program order. -/
inductive SEvent where
  | stopDHT
  | stopLSD
  | stopUPNP
  | stopNATPMP
  | setAlertMask
  | removeTorrent
  | waitForAlert
  | popAlert (what : String)
  | removeFilesCall
  | exitProcess (code : Nat)
deriving DecidableEq, Repr

/-- Embeds `stopServices` (lines 156-168): stops the four network-discovery
subsystems in the fixed order DHT, LSD, UPNP, NATPMP. -/
def stopServices : List SEvent :=
  [SEvent.stopDHT, SEvent.stopLSD, SEvent.stopUPNP, SEvent.stopNATPMP]

/-- Embeds the alert-wait loop of `shutdown` (lines 192-199) over the
session's pending alert stream: each iteration calls `Wait_for_alert(30s)`;
if it returns a null pointer (stream exhausted, 30-second poll with nothing
pending) the loop breaks; otherwise `Pop_alert2()` consumes the next alert
and the loop breaks exactly when its `What()` is `"cache_flushed_alert"`. -/
def alertWaitLoop : List String → List SEvent
  | [] => [SEvent.waitForAlert]
  | w :: ws =>
      SEvent.waitForAlert :: SEvent.popAlert w ::
        (if w = "cache_flushed_alert" then [] else alertWaitLoop ws)

/-- Embeds `shutdown` (lines 181-206) as its trace of actions: always
`stopServices` first; then, unless `keepFiles` is configured, the alert mask
is restricted, `Remove_torrent(handle, 1)` is requested, the alert-wait loop
runs, and `removeFiles` is invoked as a fallback; finally `os.Exit(0)`. -/
def shutdown (keepFiles : Bool) (alerts : List String) : List SEvent :=
  stopServices ++
    (if keepFiles = false then
      SEvent.setAlertMask :: SEvent.removeTorrent ::
        (alertWaitLoop alerts ++ [SEvent.removeFilesCall])
    else []) ++
    [SEvent.exitProcess 0]

/-! ## Idle-connection auto-shutdown monitor (`inactiveAutoShutdown`) -/

/-- Events observed by the `inactiveAutoShutdown` loop: a value received from
`connTrackChannel` (`+1` on request start, `-1` on completion), or the expiry
of the `time.After(idleTimeout)` timer armed by the `select`.  A fresh timer
is armed on every `select`, so an expiry event stands for a full idle period
elapsing with no channel receive; while `activeConnections != 0` the loop
blocks on the channel alone and no timer runs. -/
inductive IdleEvent where
  | conn (inc : Int)
  | timerExpiry
deriving DecidableEq, Repr

/-- Embeds the `for` loop of `inactiveAutoShutdown` (lines 273-288), counting
how many times `go shutdown()` is spawned over a finite event trace, starting
from the given `activeConnections` value.  A `timerExpiry` while
`activeConnections != 0` is a no-op (no timer is armed then); on expiry at
zero active connections the loop spawns `shutdown` and — having no `break` or
`return` — continues iterating with the counter unchanged. -/
def autoShutdownTriggers : Int → List IdleEvent → Nat
  | _, [] => 0
  | a, IdleEvent.conn i :: es => autoShutdownTriggers (a + i) es
  | a, IdleEvent.timerExpiry :: es =>
      if a = 0 then 1 + autoShutdownTriggers a es
      else autoShutdownTriggers a es

/-! ## Process structure: goroutines, channels, the call gateway -/

/-- The named functions of `torrent2http.go` (excluding HTTP-mux closures). -/
inductive ProgFunc where
  | runInMainThread
  | statusHandlerFn
  | lsHandlerFn
  | startServicesFn
  | stopServicesFn
  | removeFilesFn
  | shutdownFn
  | parseFlags
  | configureSession
  | connCounterHandler
  | inactiveAutoShutdown
  | startHTTP
  | watchParent
  | handleSignals
  | ensureSeeding
  | mainFn
deriving DecidableEq, Repr

/-- All functions of the source file, for exhaustive structural statements. -/
def allProgFuncs : List ProgFunc :=
  [ProgFunc.runInMainThread, ProgFunc.statusHandlerFn, ProgFunc.lsHandlerFn,
   ProgFunc.startServicesFn, ProgFunc.stopServicesFn, ProgFunc.removeFilesFn,
   ProgFunc.shutdownFn, ProgFunc.parseFlags, ProgFunc.configureSession,
   ProgFunc.connCounterHandler, ProgFunc.inactiveAutoShutdown,
   ProgFunc.startHTTP, ProgFunc.watchParent, ProgFunc.handleSignals,
   ProgFunc.ensureSeeding, ProgFunc.mainFn]

/-- Buffer capacity of the package-level channel
`var mainFuncChan = make(chan func())` (line 68): unbuffered, capacity 0. -/
def mainFuncChanCapacity : Nat := 0

/-- Whether each function's body contains a receive from `mainFuncChan`
(either `<-mainFuncChan` or a `range`/`select` receive).  Reading the source:
`mainFuncChan` occurs only at its declaration (line 68) and as the send
target inside `runInMainThread` (line 72); no function receives from it. -/
def recvsFromMainFuncChan : ProgFunc → Bool :=
  fun _ => false

/-- Whether each function's body contains a call to `runInMainThread`.
Reading the source: `runInMainThread` is defined at line 70 and never called;
the HTTP handlers (`statusHandler`, `lsHandler`) and the shutdown path access
`instance.session` / `instance.torrentHandle` directly. -/
def callsRunInMainThread : ProgFunc → Bool :=
  fun _ => false

/-- The goroutines spawned with `go …` during startup: `main` (lines 402-403)
spawns `handleSignals` and `watchParent`, then calls `startHTTP`, which
(lines 303-307) spawns `inactiveAutoShutdown` exactly when the configured
idle timeout is positive, before blocking in `http.ListenAndServe`.  No other
`go` statement runs at startup. -/
def mainSpawns (idleTimeout : Int) : List ProgFunc :=
  [ProgFunc.handleSignals, ProgFunc.watchParent] ++
    (if 0 < idleTimeout then [ProgFunc.inactiveAutoShutdown] else [])

/-! ## Seeding watcher (`ensureSeeding`) -/

/-- A polled torrent status for the seeding watcher: the pair
`(GetIs_seeding(), GetIs_finished())`. -/
structure SeedPoll where
  isSeeding : Bool
  isFinished : Bool
deriving DecidableEq, Repr

/-- Embeds the body of `ensureSeeding` (lines 332-346) over the stream of
statuses the 1-second polling loop would observe: the loop breaks at the
first poll reporting seeding or finished, after which every piece priority
`0, …, numPieces-1` is set to the uniform value `1` and the function
returns.  The result is `some` of the ordered `(piece, priority)` writes, or
`none` when no poll ever reports seeding/finished (the loop never exits and
no write happens). -/
def ensureSeedingRun (numPieces : Nat) :
    List SeedPoll → Option (List (Nat × Nat))
  | [] => none
  | p :: ps =>
      if p.isSeeding || p.isFinished then
        some ((List.range numPieces).map (fun i => (i, 1)))
      else ensureSeedingRun numPieces ps

/-! ## Helper lemmas -/

/-- The clamped piece count of `lsHandler` is always at least 1. -/
theorem lsPieceCount_pos (bufferFrac : ℚ) (sp ep : Int) :
    1 ≤ lsPieceCount bufferFrac sp ep := by
  simp only [lsPieceCount]
  split <;> omega

theorem bufferSumLoop_nonneg (progress : Int → ℚ)
    (h : ∀ i : Int, 0 ≤ progress i) : ∀ n : Nat, 0 ≤ bufferSumLoop progress n
  | 0 => le_refl 0
  | n + 1 => add_nonneg (bufferSumLoop_nonneg progress h n) (h n)

theorem bufferSumLoop_le (progress : Int → ℚ)
    (h : ∀ i : Int, progress i ≤ 1) :
    ∀ n : Nat, bufferSumLoop progress n ≤ (n : ℚ)
  | 0 => le_refl 0
  | n + 1 => by
      have ih := bufferSumLoop_le progress h n
      have hn := h (n : Int)
      push_cast
      exact add_le_add ih hn

/-! ## Claim theorems -/

/-- Claim C7: for every file returned by the file listing, the reported
`total_pieces` equals `max(endPiece - startPiece, 1)`; in particular a
zero-length or sub-piece file (degenerate range, `endPiece - startPiece ≤ 0`)
still reports `total_pieces = 1`, never `0`. -/
theorem ls_totalPieces_eq_max (bufferFrac : ℚ) (progress : Int → ℚ)
    (files : List TorrentFile) :
    ∀ fi ∈ lsHandler bufferFrac progress files,
      1 ≤ fi.totalPieces ∧
      ∃ f ∈ files,
        fi.totalPieces = max (f.endPiece - f.startPiece) 1 ∧
        (f.endPiece - f.startPiece ≤ 0 → fi.totalPieces = 1) := by
  intro fi hfi
  simp only [lsHandler, List.mem_map] at hfi
  obtain ⟨f, hf, rfl⟩ := hfi
  refine ⟨le_max_right _ _, f, hf, rfl, fun hdeg => ?_⟩
  show max (f.endPiece - f.startPiece) 1 = 1
  omega

/-- Witness for C7 at a zero-length file spanning `[3, 3)`. -/
theorem ls_totalPieces_eq_max_witness :
    1 ≤ (fileStatus (1/100) (fun _ => 0) ⟨"a", 0, 0, 3, 3⟩).totalPieces ∧
    ∃ f ∈ [(⟨"a", 0, 0, 3, 3⟩ : TorrentFile)],
      (fileStatus (1/100) (fun _ => 0) ⟨"a", 0, 0, 3, 3⟩).totalPieces =
        max (f.endPiece - f.startPiece) 1 ∧
      (f.endPiece - f.startPiece ≤ 0 →
        (fileStatus (1/100) (fun _ => 0) ⟨"a", 0, 0, 3, 3⟩).totalPieces = 1) :=
  ls_totalPieces_eq_max (1/100) (fun _ => 0) [⟨"a", 0, 0, 3, 3⟩]
    (fileStatus (1/100) (fun _ => 0) ⟨"a", 0, 0, 3, 3⟩)
    (List.mem_singleton.mpr rfl)

/-- Claim C8: for every file returned by the file listing, if the engine's
per-piece completion fractions all lie in `[0,1]`, then the reported buffer
readiness lies in `[0,1]`. -/
theorem ls_buffer_mem_unitInterval (bufferFrac : ℚ) (progress : Int → ℚ)
    (files : List TorrentFile)
    (hprog : ∀ i : Int, 0 ≤ progress i ∧ progress i ≤ 1) :
    ∀ fi ∈ lsHandler bufferFrac progress files,
      0 ≤ fi.buffer ∧ fi.buffer ≤ 1 := by
  intro fi hfi
  simp only [lsHandler, List.mem_map] at hfi
  obtain ⟨f, _, rfl⟩ := hfi
  show 0 ≤ bufferSumLoop progress
        (lsPieceCount bufferFrac f.startPiece f.endPiece).toNat /
        ((lsPieceCount bufferFrac f.startPiece f.endPiece : Int) : ℚ) ∧ _
  set pieces := lsPieceCount bufferFrac f.startPiece f.endPiece with hp
  have hpos : 1 ≤ pieces := lsPieceCount_pos bufferFrac f.startPiece f.endPiece
  have hposQ : (0 : ℚ) < ((pieces : Int) : ℚ) := by
    exact_mod_cast lt_of_lt_of_le Int.zero_lt_one hpos
  have hcast : ((pieces.toNat : Nat) : ℚ) = ((pieces : Int) : ℚ) := by
    have := Int.toNat_of_nonneg (le_trans Int.one_nonneg hpos)
    exact_mod_cast congrArg (fun z : Int => (z : ℚ)) this
  have hnn : 0 ≤ bufferSumLoop progress pieces.toNat :=
    bufferSumLoop_nonneg progress (fun i => (hprog i).1) pieces.toNat
  have hub : bufferSumLoop progress pieces.toNat ≤ ((pieces : Int) : ℚ) := by
    calc bufferSumLoop progress pieces.toNat ≤ ((pieces.toNat : Nat) : ℚ) :=
      bufferSumLoop_le progress (fun i => (hprog i).2) pieces.toNat
    _ = ((pieces : Int) : ℚ) := hcast
  exact ⟨div_nonneg hnn hposQ.le, (div_le_one hposQ).mpr hub⟩

/-- Witness for C8 at a file spanning `[0, 100)` with all pieces half
complete. -/
theorem ls_buffer_mem_unitInterval_witness :
    0 ≤ (fileStatus (1/100) (fun _ => 1/2) ⟨"a", 1, 0, 0, 100⟩).buffer ∧
    (fileStatus (1/100) (fun _ => 1/2) ⟨"a", 1, 0, 0, 100⟩).buffer ≤ 1 :=
  ls_buffer_mem_unitInterval (1/100) (fun _ => 1/2) [⟨"a", 1, 0, 0, 100⟩]
    (fun _ => ⟨by norm_num, by norm_num⟩)
    (fileStatus (1/100) (fun _ => 1/2) ⟨"a", 1, 0, 0, 100⟩)
    (List.mem_singleton.mpr rfl)

/-- Claim C9: a `/status` request with no torrent handle yields the sentinel
record — `state = -1` and every other field at its Go zero value — rather
than an error response; with a handle, the response carries the engine's live
name, state, progress, rates (divided by 1000), and peer/seed counts. -/
theorem statusHandler_sentinel_and_live :
    statusHandler none =
      ⟨"", -1, 0, 0, 0, 0, 0, 0, 0⟩ ∧
    ∀ t : TorrentStatus,
      statusHandler (some t) =
        ⟨t.name, t.state, t.progress, t.downloadRate / 1000,
         t.uploadRate / 1000, t.numPeers, t.numSeeds, t.numComplete,
         t.numIncomplete⟩ :=
  ⟨rfl, fun _ => rfl⟩

/-- Claim C10: if the torrent status reports that no metadata is available,
`removeFiles` returns immediately and deletes no path at all. -/
theorem removeFiles_no_metadata_deletes_nothing
    (savePath : String) (filePaths : List String) :
    removeFiles false savePath filePaths = [] :=
  rfl

/-- Claim C5: in every run of the shutdown sequence, the four discovery
subsystems (DHT, LSD, UPNP, NATPMP) are stopped before torrent removal is
requested, and when keep-files is not configured the fallback file deletion
is attempted for every possible alert stream — whether the wait loop exits
on a 30-second poll with no alert pending (stream exhausted) or on a
`"cache_flushed_alert"`. -/
theorem shutdown_stops_services_then_removes (alerts : List String) :
    (shutdown false alerts).take 6 =
      [SEvent.stopDHT, SEvent.stopLSD, SEvent.stopUPNP, SEvent.stopNATPMP,
       SEvent.setAlertMask, SEvent.removeTorrent] ∧
    SEvent.removeFilesCall ∈ shutdown false alerts := by
  refine ⟨rfl, ?_⟩
  simp [shutdown, stopServices]

/-- Claim C6: with keep-files configured, shutdown performs no torrent
removal, no alert wait, and no file deletion of any kind — its whole trace is
stopping the four services followed directly by `os.Exit(0)`. -/
theorem shutdown_keepFiles_skips_removal (alerts : List String) :
    shutdown true alerts =
      [SEvent.stopDHT, SEvent.stopLSD, SEvent.stopUPNP, SEvent.stopNATPMP,
       SEvent.exitProcess 0] ∧
    SEvent.removeTorrent ∉ shutdown true alerts ∧
    SEvent.setAlertMask ∉ shutdown true alerts ∧
    SEvent.waitForAlert ∉ shutdown true alerts ∧
    SEvent.removeFilesCall ∉ shutdown true alerts := by
  have h : shutdown true alerts =
      [SEvent.stopDHT, SEvent.stopLSD, SEvent.stopUPNP, SEvent.stopNATPMP,
       SEvent.exitProcess 0] := rfl
  refine ⟨h, ?_, ?_, ?_, ?_⟩ <;> rw [h] <;> decide

/-- Claim C1 (divergence witness): for a file spanning pieces `[5, 105)` with
buffer fraction `1/100`, and an engine reporting pieces below index 5 as
incomplete and the rest as complete, the code's `lsHandler` reports buffer
readiness `0` — it averages `Get_piece_progress` over the absolute piece
index range `0..pieceCount-1` — while the buffer readiness over the leading
pieces of the file's own range `[startPiece, …)`, as the claim states it,
is `1`. -/
theorem ls_buffer_ignores_startPiece :
    (fileStatus (1/100) (fun i => if i < 5 then 0 else 1)
        ⟨"second.bin", 100, 1000, 5, 105⟩).buffer = 0 ∧
    specBufferReadiness (1/100) (fun i => if i < 5 then 0 else 1)
        ⟨"second.bin", 100, 1000, 5, 105⟩ = 1 := by
  have hceil : lsPieceCount (1/100) 5 105 = 1 := by
    have h1 : ((1 : ℚ)/100) * (((105 : Int) - 5 : Int) : ℚ) = 1 := by
      norm_num
    simp [lsPieceCount, h1]
  constructor
  · show bufferSumLoop (fun i => if i < 5 then 0 else 1)
        (lsPieceCount (1/100) 5 105).toNat /
        ((lsPieceCount (1/100) 5 105 : Int) : ℚ) = 0
    rw [hceil]
    norm_num [bufferSumLoop]
  · show specBufferSum (fun i => if i < 5 then 0 else 1) 5
        (lsPieceCount (1/100) 5 105).toNat /
        ((lsPieceCount (1/100) 5 105 : Int) : ℚ) = 1
    rw [hceil]
    norm_num [specBufferSum]

/-- Claim C2 (counterexample): no function of the program receives from
`mainFuncChan`, so the number of queue-consuming workers is `0`, not the
claimed `1`. -/
theorem no_mainFuncChan_worker_exists :
    ¬((allProgFuncs.filter (fun f => recvsFromMainFuncChan f)).length = 1) :=
  by decide

/-- Claim C2 (amended): `runInMainThread` submits through `mainFuncChan`, an
unbuffered channel (capacity `0`, not an unbounded queue); no function of the
program receives from `mainFuncChan` and none calls `runInMainThread`, so no
dedicated worker consumes the gateway and the gateway is dead code — a call
to `runInMainThread` would block forever on the send. -/
theorem gateway_has_no_worker_and_no_callers :
    mainFuncChanCapacity = 0 ∧
    (∀ f : ProgFunc, recvsFromMainFuncChan f = false ∧
      callsRunInMainThread f = false) ∧
    (allProgFuncs.filter (fun f => recvsFromMainFuncChan f)) = [] := by
  refine ⟨rfl, fun f => ⟨rfl, rfl⟩, by decide⟩

/-- Claim C3 (counterexample): `main` never starts the seeding watcher — with
the default configuration (idle timeout disabled, `-1`) and with a positive
idle timeout (`60`), `ensureSeeding` is not among the routines spawned. -/
theorem ensureSeeding_never_spawned_concrete :
    ProgFunc.ensureSeeding ∉ mainSpawns (-1) ∧
    ProgFunc.ensureSeeding ∉ mainSpawns 60 := by
  constructor <;> decide

/-- Claim C3 (amended): the program defines a seeding watcher,
`ensureSeeding`, which — were it run — would poll once per second, break at
the first status reporting seeding or finished, and then set every piece's
priority to the uniform value `1` exactly once and terminate; but no process
execution ever starts it: `main` spawns only the signal handler, the
parent-death watchdog, and (for a positive idle timeout) the idle monitor. -/
theorem ensureSeeding_behavior_but_never_started :
    (∀ idleTimeout : Int, ProgFunc.ensureSeeding ∉ mainSpawns idleTimeout) ∧
    (∀ (numPieces : Nat) (pre post : List SeedPoll) (p : SeedPoll),
      (∀ q ∈ pre, q.isSeeding = false ∧ q.isFinished = false) →
      (p.isSeeding || p.isFinished) = true →
      ensureSeedingRun numPieces (pre ++ p :: post) =
        some ((List.range numPieces).map (fun i => (i, 1)))) := by
  constructor
  · intro t
    by_cases h : 0 < t <;> simp [mainSpawns, h]
  · intro numPieces pre post p hpre hp
    induction pre with
    | nil => simp [ensureSeedingRun, hp]
    | cons q qs ih =>
        have hq := hpre q (List.mem_cons_self q qs)
        have hqs : ∀ r ∈ qs, r.isSeeding = false ∧ r.isFinished = false :=
          fun r hr => hpre r (List.mem_cons_of_mem q hr)
        simp [ensureSeedingRun, hq.1, hq.2, ih hqs]

/-- Witness for the amended C3: watcher absent at idle timeout `7`, and a run
of the watcher body over one non-seeding poll followed by a seeding poll
fires the uniform priority writes for a 3-piece torrent. -/
theorem ensureSeeding_behavior_witness :
    ProgFunc.ensureSeeding ∉ mainSpawns 7 ∧
    ensureSeedingRun 3 ([⟨false, false⟩] ++ ⟨true, false⟩ :: []) =
      some ((List.range 3).map (fun i => (i, 1))) :=
  ⟨ensureSeeding_behavior_but_never_started.1 7,
   ensureSeeding_behavior_but_never_started.2 3 [⟨false, false⟩] []
     ⟨true, false⟩ (by decide) rfl⟩

/-- Claim C4 (counterexample): starting from zero active connections, two
consecutive idle-timer expiries with no intervening request spawn `shutdown`
twice — the monitor loop has no break after triggering, so shutdown is not
triggered "exactly once, never a second time". -/
theorem autoShutdown_triggers_twice :
    autoShutdownTriggers 0 [IdleEvent.timerExpiry, IdleEvent.timerExpiry] = 2
    := by decide

/-- Claim C4 (amended): while no requests are active the monitor triggers
shutdown once per elapsed idle period — `n` consecutive expiries yield `n`
triggers, not exactly one — and any trace in which an increment always
arrives before the timer expires (no expiry event) yields no trigger at all:
each arrival restarts the idle window. -/
theorem autoShutdown_trigger_per_expiry :
    (∀ n : Nat,
      autoShutdownTriggers 0 (List.replicate n IdleEvent.timerExpiry) = n) ∧
    (∀ (a : Int) (es : List IdleEvent),
      (∀ e ∈ es, e ≠ IdleEvent.timerExpiry) →
      autoShutdownTriggers a es = 0) := by
  constructor
  · intro n
    induction n with
    | zero => rfl
    | succ k ih =>
        simp [List.replicate_succ, autoShutdownTriggers, ih]
        omega
  · intro a es
    induction es generalizing a with
    | nil => intro _; rfl
    | cons e es ih =>
        intro h
        have he := h e (List.mem_cons_self e es)
        have hes : ∀ x ∈ es, x ≠ IdleEvent.timerExpiry :=
          fun x hx => h x (List.mem_cons_of_mem e hx)
        cases e with
        | conn i => simpa [autoShutdownTriggers] using ih (a + i) hes
        | timerExpiry => exact absurd rfl he

/-- Witness for the amended C4: three expiries yield three triggers, and a
request arriving and completing before any expiry yields none. -/
theorem autoShutdown_trigger_per_expiry_witness :
    autoShutdownTriggers 0 (List.replicate 3 IdleEvent.timerExpiry) = 3 ∧
    autoShutdownTriggers 0 [IdleEvent.conn 1, IdleEvent.conn (-1)] = 0 :=
  ⟨autoShutdown_trigger_per_expiry.1 3,
   autoShutdown_trigger_per_expiry.2 0 [IdleEvent.conn 1, IdleEvent.conn (-1)]
     (by decide)⟩

/-- Witness for C5 at an alert stream whose first alert is unrelated and
whose second is the cache-flush. -/
theorem shutdown_stops_services_then_removes_witness :
    (shutdown false ["piece_finished_alert", "cache_flushed_alert"]).take 6 =
      [SEvent.stopDHT, SEvent.stopLSD, SEvent.stopUPNP, SEvent.stopNATPMP,
       SEvent.setAlertMask, SEvent.removeTorrent] ∧
    SEvent.removeFilesCall ∈
      shutdown false ["piece_finished_alert", "cache_flushed_alert"] :=
  shutdown_stops_services_then_removes
    ["piece_finished_alert", "cache_flushed_alert"]

/-- Witness for C6 at a nonempty pending alert stream. -/
theorem shutdown_keepFiles_skips_removal_witness :
    shutdown true ["cache_flushed_alert"] =
      [SEvent.stopDHT, SEvent.stopLSD, SEvent.stopUPNP, SEvent.stopNATPMP,
       SEvent.exitProcess 0] ∧
    SEvent.removeTorrent ∉ shutdown true ["cache_flushed_alert"] ∧
    SEvent.setAlertMask ∉ shutdown true ["cache_flushed_alert"] ∧
    SEvent.waitForAlert ∉ shutdown true ["cache_flushed_alert"] ∧
    SEvent.removeFilesCall ∉ shutdown true ["cache_flushed_alert"] :=
  shutdown_keepFiles_skips_removal ["cache_flushed_alert"]

/-- Witness for C9 at a concrete live torrent status. -/
theorem statusHandler_sentinel_and_live_witness :
    statusHandler (some ⟨"movie", 3, 1/2, 2000, 1000, 4, 9, 6, 8⟩) =
      ⟨"movie", 3, 1/2, 2, 1, 4, 6, 8, 9⟩ := by
  have h := statusHandler_sentinel_and_live.2 ⟨"movie", 3, 1/2, 2000, 1000, 4, 9, 6, 8⟩
  rw [h]
  norm_num

/-- Witness for C10 at a concrete save path and two-file torrent. -/
theorem removeFiles_no_metadata_witness :
    removeFiles false "/downloads" ["a.bin", "b.bin"] = [] :=
  removeFiles_no_metadata_deletes_nothing "/downloads" ["a.bin", "b.bin"]

/-- Witness for the amended C2 at concrete functions. -/
theorem gateway_has_no_worker_witness :
    mainFuncChanCapacity = 0 ∧
    recvsFromMainFuncChan ProgFunc.mainFn = false ∧
    callsRunInMainThread ProgFunc.statusHandlerFn = false :=
  ⟨gateway_has_no_worker_and_no_callers.1,
   (gateway_has_no_worker_and_no_callers.2.1 ProgFunc.mainFn).1,
   (gateway_has_no_worker_and_no_callers.2.1 ProgFunc.statusHandlerFn).2⟩

end Torrent2http
